import Mathlib

/-!
Verification development for the voiceerp-transcript-listener pipeline.

This file gives a shallow embedding of the event-correlation and processing
pipeline: the FreeSWITCH event listener (FreeSWITCHListener, in the unnamed
source file part_000), the transcript processor (src/lib/TranscriptProcessor.js),
and the reconnection state machine.  JavaScript Maps become association lists,
Date.now() becomes an explicit clock parameter, queue submission becomes an
append onto an explicit queue list, and database insertion becomes an append
onto an explicit database state.  Truthiness of JavaScript strings and the
fallback operator are modelled explicitly.
-/

/-- Truthiness of an optional JavaScript string: undefined and the empty
string are falsy, every other string is truthy. -/
def jsTruthy : Option String → Bool
  | none => false
  | some s => s ≠ ""

/-- The JavaScript fallback a or-else b on optional strings: the left value
wins when it is truthy. -/
def jsOr (a b : Option String) : Option String :=
  if jsTruthy a then a else b

/-- The JavaScript fallback s or-else d on a plain string: the empty string
falls back to the default. -/
def jsOrS (s d : String) : String :=
  if s = "" then d else s

/-- The JavaScript fallback q or-else d on a number: zero falls back to the
default (models value or-default on confidences). -/
def jsOrQ (q d : ℚ) : ℚ :=
  if q = 0 then d else q

/-- Lookup in an association list, modelling JavaScript Map.get (and header
bags). -/
def mapGet {α : Type} : List (String × α) → String → Option α
  | [], _ => none
  | (k1, v) :: rest, k => if k1 = k then some v else mapGet rest k

/-- Membership test, modelling JavaScript Map.has. -/
def mapHas {α : Type} (m : List (String × α)) (k : String) : Bool :=
  (mapGet m k).isSome

/-- Insert or replace, modelling JavaScript Map.set: an existing key keeps its
position and gets the new value, a new key is appended. -/
def mapSet {α : Type} : List (String × α) → String → α → List (String × α)
  | [], k, v => [(k, v)]
  | (k1, v1) :: rest, k, v =>
      if k1 = k then (k, v) :: rest else (k1, v1) :: mapSet rest k v

/-- Removal, modelling JavaScript Map.delete. -/
def mapDelete {α : Type} : List (String × α) → String → List (String × α)
  | [], _ => []
  | (k1, v1) :: rest, k =>
      if k1 = k then mapDelete rest k else (k1, v1) :: mapDelete rest k

/-- A raw switch event: a bag of headers, as delivered by the event socket. -/
structure FSEvent where
  headers : List (String × String)
deriving Repr, DecidableEq

/-- event.getHeader(name): the header value, or undefined when absent. -/
def getHeader (e : FSEvent) (name : String) : Option String :=
  mapGet e.headers name

/-- The event payload built for a TTS start (tts_start) or a detected-speech
result (stt_detected) before it is queued, cached and broadcast.  Both payloads
carry the same fields in the source. -/
structure EventData where
  type : String
  callSid : String
  text : String
  speaker : String
  timestamp : Nat
  confidence : ℚ
  vendor : String
  language : String
deriving Repr, DecidableEq

/-- A cached entry of the per-call transcript cache: the event payload plus
the cached_at stamp added by addToCallCache. -/
structure CachedEvent where
  data : EventData
  cached_at : Nat
deriving Repr, DecidableEq

/-- A raw entry of a CallSession event history, as pushed by addCallEvent for
a channel-execute event. -/
structure CallEvent where
  type : String
  application : Option String
  data : Option String
  timestamp : Nat
deriving Repr, DecidableEq

/-- The in-memory record of one active call, as stored in the listener's
activeCalls map. -/
structure CallSession where
  callSid : String
  callerNumber : Option String
  destinationNumber : Option String
  startTime : Nat
  answerTime : Option Nat
  endTime : Option Nat
  hangupCause : Option String
  events : List CallEvent
deriving Repr, DecidableEq

/-- A message handed to the broadcast callback: either a classified event
payload or the tts_complete marker built by handleChannelExecuteComplete. -/
inductive BroadcastMsg where
  | eventData (d : EventData)
  | ttsComplete (callSid : String) (timestamp : Nat)
deriving Repr, DecidableEq

/-- A call-completion aggregation job (batch-insert with type call_complete)
as placed on the batch queue by processCallComplete. -/
structure BatchJob where
  callSid : String
  callData : CallSession
  transcriptSegments : List CachedEvent
deriving Repr, DecidableEq

/-- The combined observable state of the listener and the transcript
processor: the active-call table, the event counters, the per-call transcript
cache, the three queues the claims are about, and the broadcast log. -/
structure SysState where
  activeCalls : List (String × CallSession)
  eventCounts : List (String × Nat)
  lastStatsReport : Nat
  activeCallTranscripts : List (String × List CachedEvent)
  ttsQueue : List EventData
  sttQueue : List EventData
  batchQueue : List BatchJob
  broadcasts : List (String × BroadcastMsg)
  processedEvents : Nat
  lastPerformanceReport : Nat
deriving Repr, DecidableEq

/-- The state at service start: empty tables and queues, the stats stamps
taken from the construction-time clock. -/
def initState (now : Nat) : SysState :=
  { activeCalls := []
    eventCounts := []
    lastStatsReport := now
    activeCallTranscripts := []
    ttsQueue := []
    sttQueue := []
    batchQueue := []
    broadcasts := []
    processedEvents := 0
    lastPerformanceReport := now }

/-- extractCallSid: the call-correlation header, falling back to the unique
channel id, then the core UUID — first truthy value wins. -/
def extractCallSid (e : FSEvent) : Option String :=
  jsOr (getHeader e "variable_call_sid")
    (jsOr (getHeader e "Unique-ID") (getHeader e "Core-UUID"))

/-- Whether the text contains a character of the Bengali Unicode block
U+0980 to U+09FF (the regex test in extractLanguage). -/
def containsBengali (text : String) : Bool :=
  text.data.any (fun c => 0x980 ≤ c.toNat ∧ c.toNat ≤ 0x9FF)

/-- extractLanguage: simple Bengali detection — the regional code when a
character of the Bengali block is present, null otherwise. -/
def extractLanguage (text : String) : Option String :=
  if containsBengali text then some "bn-IN" else none

/-- The confidence taken from the Speech-Confidence header:
parseFloat(confidence) or-else 0.8.  The parse function is a parameter of the
model (pf s = none models NaN); an absent header, a failed parse and a parsed
zero all fall back to 0.8, matching JavaScript falsiness. -/
def parsedConfidence (pf : String → Option ℚ) (h : Option String) : ℚ :=
  match h with
  | none => 0.8
  | some s =>
      match pf s with
      | none => 0.8
      | some q => if q = 0 then 0.8 else q

/-- trackEvent: bump the per-type event counter; once more than a minute has
passed since the last stats report, report (clearing all counters) and stamp
the report time. -/
def trackEvent (st : SysState) (eventType : String) (now : Nat) : SysState :=
  let count := (mapGet st.eventCounts eventType).getD 0
  let st := { st with eventCounts := mapSet st.eventCounts eventType (count + 1) }
  if now - st.lastStatsReport > 60000 then
    { st with eventCounts := [], lastStatsReport := now }
  else st

/-- trackProcessedEvent: bump the processed-event counter; once more than a
minute has passed since the last performance report, report (resetting the
counter) and stamp the report time. -/
def trackProcessedEvent (st : SysState) (now : Nat) : SysState :=
  let st := { st with processedEvents := st.processedEvents + 1 }
  if now - st.lastPerformanceReport > 60000 then
    { st with processedEvents := 0, lastPerformanceReport := now }
  else st

/-- addToCallCache: ensure a cache entry exists for the call, append the event
stamped with cached_at, then trim the entry to its last 100 events. -/
def addToCallCache (m : List (String × List CachedEvent)) (callSid : String)
    (eventData : EventData) (now : Nat) : List (String × List CachedEvent) :=
  let m1 := if mapHas m callSid then m else mapSet m callSid []
  let cache := (mapGet m1 callSid).getD []
  let pushed := cache ++ [{ data := eventData, cached_at := now }]
  let trimmed :=
    if pushed.length > 100 then pushed.drop (pushed.length - 100) else pushed
  mapSet m1 callSid trimmed

/-- TranscriptProcessor.processTTSEvent: enqueue the payload on the TTS lane,
then store it in the per-call memory cache (the catch swallows any error, so
nothing propagates to the caller). -/
def tpProcessTTSEvent (st : SysState) (eventData : EventData) (now : Nat) : SysState :=
  let st := { st with ttsQueue := st.ttsQueue ++ [eventData] }
  let st := { st with
    activeCallTranscripts :=
      addToCallCache st.activeCallTranscripts eventData.callSid eventData now }
  trackProcessedEvent st now

/-- TranscriptProcessor.processSTTEvent: enqueue the payload on the STT lane,
then store it in the per-call memory cache (the catch swallows any error, so
nothing propagates to the caller).  The active-call table is never consulted. -/
def tpProcessSTTEvent (st : SysState) (eventData : EventData) (now : Nat) : SysState :=
  let st := { st with sttQueue := st.sttQueue ++ [eventData] }
  let st := { st with
    activeCallTranscripts :=
      addToCallCache st.activeCallTranscripts eventData.callSid eventData now }
  trackProcessedEvent st now

/-- TranscriptProcessor.processCallComplete: read the cached transcript for
the call; when present and non-empty, submit one call_complete batch-insert
job carrying the session and the cached segments; afterwards delete the cache
entry for the call id. -/
def tpProcessCallComplete (st : SysState) (callData : CallSession) (now : Nat) : SysState :=
  let cached := mapGet st.activeCallTranscripts callData.callSid
  let st :=
    match cached with
    | some segs =>
        if segs.length > 0 then
          let job : BatchJob :=
            { callSid := callData.callSid
              callData := callData
              transcriptSegments := segs }
          { st with batchQueue := st.batchQueue ++ [job] }
        else st
    | none => st
  let st := { st with
    activeCallTranscripts := mapDelete st.activeCallTranscripts callData.callSid }
  trackProcessedEvent st now

/-- addCallEvent: append a raw event to the session's history when the call is
in the active table; otherwise do nothing. -/
def addCallEvent (st : SysState) (callSid : String) (eventData : CallEvent) : SysState :=
  match mapGet st.activeCalls callSid with
  | some call =>
      let call2 := { call with events := call.events ++ [eventData] }
      { st with activeCalls := mapSet st.activeCalls callSid call2 }
  | none => st

/-- handleChannelCreate: when the extracted call id is truthy, store a fresh
CallSession under it (an existing entry for the same id is replaced). -/
def handleChannelCreate (st : SysState) (e : FSEvent) (now : Nat) : SysState :=
  let callSid := extractCallSid e
  if jsTruthy callSid then
    let sid := callSid.getD ""
    let session : CallSession :=
      { callSid := sid
        callerNumber := getHeader e "Caller-Caller-ID-Number"
        destinationNumber := getHeader e "Caller-Destination-Number"
        startTime := now
        answerTime := none
        endTime := none
        hangupCause := none
        events := [] }
    let st := { st with activeCalls := mapSet st.activeCalls sid session }
    trackEvent st "CHANNEL_CREATE" now
  else st

/-- handleChannelAnswer: when the call is active, stamp its answer time. -/
def handleChannelAnswer (st : SysState) (e : FSEvent) (now : Nat) : SysState :=
  let callSid := extractCallSid e
  if jsTruthy callSid then
    let sid := callSid.getD ""
    match mapGet st.activeCalls sid with
    | some call =>
        let call2 := { call with answerTime := some now }
        let st := { st with activeCalls := mapSet st.activeCalls sid call2 }
        trackEvent st "CHANNEL_ANSWER" now
    | none => st
  else st

/-- handleChannelHangup: when the call is active, stamp end time and hangup
cause, hand the session to processCallComplete, delete the active entry and
count the event; when the call id is unknown the event is ignored. -/
def handleChannelHangup (st : SysState) (e : FSEvent) (now : Nat) : SysState :=
  let callSid := extractCallSid e
  let hangupCause := getHeader e "Hangup-Cause"
  if jsTruthy callSid then
    let sid := callSid.getD ""
    match mapGet st.activeCalls sid with
    | some call =>
        let call := { call with endTime := some now, hangupCause := hangupCause }
        let st := tpProcessCallComplete st call now
        let st := { st with activeCalls := mapDelete st.activeCalls sid }
        trackEvent st "CHANNEL_HANGUP" now
    | none => st
  else st

/-- handleChannelExecute: for a speak application with truthy data and call
id, build the tts_start payload (language inferred with the default fallback
bn-IN), process it, broadcast it and count it; independently, for any truthy
call id, record the raw execute event in the session history. -/
def handleChannelExecute (st : SysState) (e : FSEvent) (now : Nat) : SysState :=
  let application := getHeader e "Application"
  let applicationData := getHeader e "Application-Data"
  let callSid := extractCallSid e
  let st :=
    if application = some "speak" ∧ jsTruthy applicationData ∧ jsTruthy callSid then
      let sid := callSid.getD ""
      let text := applicationData.getD ""
      let ttsData : EventData :=
        { type := "tts_start"
          callSid := sid
          text := text
          speaker := "agent"
          timestamp := now
          confidence := 1
          vendor := "system"
          language := (extractLanguage text).getD "bn-IN" }
      let st := tpProcessTTSEvent st ttsData now
      let st := { st with broadcasts := st.broadcasts ++ [(sid, .eventData ttsData)] }
      trackEvent st "TTS_START" now
    else st
  if jsTruthy callSid then
    addCallEvent st (callSid.getD "")
      { type := "execute", application := application,
        data := applicationData, timestamp := now }
  else st

/-- handleChannelExecuteComplete: for a speak application with truthy call id,
broadcast the tts_complete marker and count the event.  No segment is touched:
neither the transcript processor nor the store is invoked. -/
def handleChannelExecuteComplete (st : SysState) (e : FSEvent) (now : Nat) : SysState :=
  let application := getHeader e "Application"
  let callSid := extractCallSid e
  if application = some "speak" ∧ jsTruthy callSid then
    let sid := callSid.getD ""
    let st := { st with broadcasts := st.broadcasts ++ [(sid, .ttsComplete sid now)] }
    trackEvent st "TTS_COMPLETE" now
  else st

/-- handleDetectedSpeech: for a truthy speech result and call id, build the
stt_detected payload, process it, broadcast it and count it.  The active-call
table is not consulted. -/
def handleDetectedSpeech (pf : String → Option ℚ) (st : SysState) (e : FSEvent)
    (now : Nat) : SysState :=
  let speechResult := getHeader e "Speech-Result"
  let confidence := getHeader e "Speech-Confidence"
  let callSid := extractCallSid e
  if jsTruthy speechResult ∧ jsTruthy callSid then
    let sid := callSid.getD ""
    let sttData : EventData :=
      { type := "stt_detected"
        callSid := sid
        text := speechResult.getD ""
        speaker := "caller"
        timestamp := now
        confidence := parsedConfidence pf confidence
        vendor := "google"
        language := "bn-BD" }
    let st := tpProcessSTTEvent st sttData now
    let st := { st with broadcasts := st.broadcasts ++ [(sid, .eventData sttData)] }
    trackEvent st "STT_DETECTED" now
  else st

/-- A raw event of the single-threaded ingestion path, tagged by the socket
event name it arrives under. -/
inductive RawEvent where
  | channelCreate (e : FSEvent)
  | channelAnswer (e : FSEvent)
  | channelHangup (e : FSEvent)
  | channelExecute (e : FSEvent)
  | channelExecuteComplete (e : FSEvent)
  | detectedSpeech (e : FSEvent)
deriving Repr, DecidableEq

/-- One step of the ingestion path: dispatch a raw event, stamped with its
arrival clock, to its handler. -/
def step (pf : String → Option ℚ) (st : SysState) (ev : RawEvent × Nat) : SysState :=
  match ev with
  | (.channelCreate e, now) => handleChannelCreate st e now
  | (.channelAnswer e, now) => handleChannelAnswer st e now
  | (.channelHangup e, now) => handleChannelHangup st e now
  | (.channelExecute e, now) => handleChannelExecute st e now
  | (.channelExecuteComplete e, now) => handleChannelExecuteComplete st e now
  | (.detectedSpeech e, now) => handleDetectedSpeech pf st e now

/-- Process a sequence of raw events in arrival order. -/
def run (pf : String → Option ℚ) (st : SysState) (evs : List (RawEvent × Nat)) : SysState :=
  evs.foldl (step pf) st

/-- A transcript segment as built by the realtime queue-job processors and
stored through insertTranscriptSegment.  The generated uuid and the
JSON-stringified metadata are not modelled; created_at is the processing
clock. -/
structure Segment where
  call_sid : String
  segment_type : String
  text : String
  speaker : String
  start_time : Nat
  end_time : Option Nat
  confidence : ℚ
  language : String
  vendor : String
  source_type : String
  created_at : Nat
deriving Repr, DecidableEq

/-- TranscriptProcessor.processTTSJob: the segment built for a queued TTS
event.  Its end_time is null; the source comment promises it will be updated
when the TTS completes. -/
def processTTSJob (eventData : EventData) (createdAt : Nat) : Segment :=
  { call_sid := eventData.callSid
    segment_type := "tts"
    text := eventData.text
    speaker := jsOrS eventData.speaker "agent"
    start_time := eventData.timestamp
    end_time := none
    confidence := jsOrQ eventData.confidence 1
    language := jsOrS eventData.language "bn-IN"
    vendor := jsOrS eventData.vendor "system"
    source_type := "tts_generated"
    created_at := createdAt }

/-- TranscriptProcessor.processSTTJob: the segment built for a queued STT
event; its end time equals its start time (STT is instantaneous). -/
def processSTTJob (eventData : EventData) (createdAt : Nat) : Segment :=
  { call_sid := eventData.callSid
    segment_type := "stt"
    text := eventData.text
    speaker := jsOrS eventData.speaker "caller"
    start_time := eventData.timestamp
    end_time := some eventData.timestamp
    confidence := jsOrQ eventData.confidence 0.8
    language := jsOrS eventData.language "bn-BD"
    vendor := jsOrS eventData.vendor "google"
    source_type := "stt_realtime"
    created_at := createdAt }

/-- First-occurrence deduplication, auxiliary recursion over the input with
the already-seen prefix accumulated. -/
def dedupFirstAux (acc : List String) : List String → List String
  | [] => acc
  | x :: xs => if x ∈ acc then dedupFirstAux acc xs else dedupFirstAux (acc ++ [x]) xs

/-- Spreading a JavaScript Set built from a list: the distinct values in
first-occurrence order. -/
def dedupFirst (l : List String) : List String :=
  dedupFirstAux [] l

/-- The durable call-transcript record built by processBatchCallComplete (the
generated uuid is not modelled). -/
structure CallTranscript where
  call_sid : String
  caller_number : Option String
  destination_number : Option String
  start_time : Nat
  answer_time : Option Nat
  end_time : Nat
  duration : Nat
  hangup_cause : Option String
  total_segments : Nat
  languages : String
  status : String
  created_at : Nat
deriving Repr, DecidableEq

/-- A persisted segment row produced from one cached event during call
aggregation (uuid and metadata string not modelled; the parent record id is
implied by the enclosing batch). -/
structure PersistedSegment where
  call_sid : String
  segment_type : String
  text : String
  speaker : String
  start_time : Nat
  end_time : Nat
  confidence : ℚ
  language : String
  vendor : String
  source_type : String
  created_at : Nat
deriving Repr, DecidableEq

/-- The durable store as visible to the aggregation path. -/
structure DbState where
  callTranscripts : List CallTranscript
  segments : List PersistedSegment
deriving Repr, DecidableEq

/-- The call-transcript record of processBatchCallComplete: duration is the
millisecond difference rounded to whole seconds, languages the deduplicated
segment languages joined with commas, total_segments the cached-segment
count, status completed.  The end time defaults to 0 when the session carries
none; on the pipeline path hangup always stamps it first. -/
def mkCallTranscript (batch : BatchJob) (createdAt : Nat) : CallTranscript :=
  { call_sid := batch.callSid
    caller_number := batch.callData.callerNumber
    destination_number := batch.callData.destinationNumber
    start_time := batch.callData.startTime
    answer_time := batch.callData.answerTime
    end_time := batch.callData.endTime.getD 0
    duration := (batch.callData.endTime.getD 0 - batch.callData.startTime + 500) / 1000
    hangup_cause := batch.callData.hangupCause
    total_segments := batch.transcriptSegments.length
    languages := String.intercalate "," (dedupFirst (batch.transcriptSegments.map (fun s => s.data.language)))
    status := "completed"
    created_at := createdAt }

/-- The persisted form of one cached event: tts_start maps to segment type
tts, otherwise the _detected suffix is stripped; start and end time are both
the event timestamp. -/
def mkPersistedSegment (callSid : String) (seg : CachedEvent) (createdAt : Nat) :
    PersistedSegment :=
  { call_sid := callSid
    segment_type :=
      if seg.data.type = "tts_start" then "tts"
      else seg.data.type.replace "_detected" ""
    text := seg.data.text
    speaker := seg.data.speaker
    start_time := seg.data.timestamp
    end_time := seg.data.timestamp
    confidence := seg.data.confidence
    language := seg.data.language
    vendor := seg.data.vendor
    source_type := seg.data.type
    created_at := createdAt }

/-- TranscriptProcessor.processBatchCallComplete: insert exactly one call
transcript built from the session and the cached segments, then batch-insert
the persisted form of every cached segment. -/
def processBatchCallComplete (db : DbState) (batch : BatchJob) (createdAt : Nat) :
    DbState :=
  let callTranscript := mkCallTranscript batch createdAt
  let db := { db with callTranscripts := db.callTranscripts ++ [callTranscript] }
  if batch.transcriptSegments.length > 0 then
    { db with segments := db.segments ++
        batch.transcriptSegments.map (fun s => mkPersistedSegment batch.callSid s createdAt) }
  else db

/-- The recording-complete payload handed to the recording batch lane. -/
structure RecordingData where
  callSid : String
  recordingPath : String
  duration : ℚ
  timestamp : Nat
deriving Repr, DecidableEq

/-- The first alternative of one recognition result from the transcription
provider: transcript text, confidence, and the start and end offsets (whole
seconds) of the first and last word. -/
structure SpeechAlt where
  transcript : String
  confidence : Option ℚ
  firstWordStartSec : Option Nat
  lastWordEndSec : Option Nat
  wordCount : Nat
deriving Repr, DecidableEq

/-- One recognition result: its first alternative plus the speaker tag the
provider may attach. -/
structure SpeechResult where
  alt : SpeechAlt
  speakerTag : Option Nat
deriving Repr, DecidableEq

/-- The external environment of the recording batch job: whether provider
credentials are configured, whether the recording file exists, and what the
provider returns (an error models a thrown provider failure). -/
structure RecEnv where
  hasGoogleCredentials : Bool
  recordingFileExists : Bool
  recognizeResults : Except String (List SpeechResult)
deriving Repr

/-- The value a recording batch job resolves with. -/
inductive RecJobResult where
  | skipped (reason : String)
  | processed (segments : Nat)
deriving Repr, DecidableEq

/-- A batch-recognition segment built from one provider result (uuid and
metadata not modelled).  The speaker falls back to alternating tags when the
provider gives none. -/
def mkBatchSegment (rec : RecordingData) (r : SpeechResult) (segmentIndex : Nat)
    (createdAt : Nat) : PersistedSegment :=
  let speakerTag := r.speakerTag.getD (if segmentIndex % 2 = 0 then 1 else 2)
  { call_sid := rec.callSid
    segment_type := "stt_batch"
    text := r.alt.transcript
    speaker := if speakerTag = 1 then "caller" else "agent"
    start_time := rec.timestamp + (r.alt.firstWordStartSec.getD 0) * 1000
    end_time := rec.timestamp + (r.alt.lastWordEndSec.getD 0) * 1000
    confidence := (r.alt.confidence).getD 0.9
    language := "bn-BD"
    vendor := "google"
    source_type := "stt_batch"
    created_at := createdAt }

/-- The non-empty transcripts among the provider results, in order, paired
with their running segment index (results whose transcript is empty after
trimming are dropped; trimming is modelled as the emptiness test). -/
def collectBatchSegments (rec : RecordingData) (results : List SpeechResult)
    (createdAt : Nat) : List PersistedSegment :=
  ((results.filter (fun r => r.alt.transcript.trim ≠ "")).enum.map
    (fun p => mkBatchSegment rec p.2 p.1 createdAt))

/-- TranscriptProcessor.processRecordingJob: absent provider credentials or a
missing recording file resolve the job as a non-failure with processed =
false; a provider throw propagates as a job failure; empty results resolve
with zero segments; otherwise the batch segments are inserted and counted. -/
def processRecordingJob (env : RecEnv) (db : DbState) (rec : RecordingData)
    (createdAt : Nat) : Except String (DbState × RecJobResult) :=
  if env.hasGoogleCredentials = false then
    .ok (db, .skipped "No Google Cloud credentials")
  else if env.recordingFileExists = false then
    .ok (db, .skipped "Recording file not found")
  else
    match env.recognizeResults with
    | .error err => .error err
    | .ok results =>
        if results.length = 0 then
          .ok (db, .processed 0)
        else
          let segs := collectBatchSegments rec results createdAt
          let db :=
            if segs.length > 0 then
              { db with segments := db.segments ++ segs }
            else db
          .ok (db, .processed segs.length)

/-- Per-lane queue counters as exposed by the queue broker. -/
structure LaneCounters where
  completed : Nat
  failed : Nat
deriving Repr, DecidableEq

/-- One execution of a recording batch job under the lane's observers: a
resolved job bumps the completed counter, a thrown one bumps the failed
counter and leaves the store untouched. -/
def runRecordingJob (lane : LaneCounters) (env : RecEnv) (db : DbState)
    (rec : RecordingData) (createdAt : Nat) :
    LaneCounters × DbState × Option RecJobResult :=
  match processRecordingJob env db rec createdAt with
  | .ok (db2, r) => ({ lane with completed := lane.completed + 1 }, db2, some r)
  | .error _ => ({ lane with failed := lane.failed + 1 }, db, none)

/-- The reconnection state of the listener: the attempt counter, the
configured ceiling and base delay, and whether the fatal
max_reconnects_reached signal has been emitted. -/
structure ConnState where
  reconnectAttempts : Nat
  maxReconnectAttempts : Nat
  reconnectDelay : Nat
  fatalEmitted : Bool
deriving Repr, DecidableEq

/-- What one invocation of handleDisconnection does besides updating state:
either schedule a reconnect after the given delay, or give up fatally. -/
inductive DisconnectOutcome where
  | scheduledReconnect (delay : Nat)
  | fatal
deriving Repr, DecidableEq

/-- FreeSWITCHListener.handleDisconnection: at or above the ceiling, emit the
fatal signal and do not schedule anything; below it, bump the attempt counter
and schedule a reconnect after the constant configured delay. -/
def handleDisconnection (st : ConnState) : ConnState × DisconnectOutcome :=
  if st.reconnectAttempts ≥ st.maxReconnectAttempts then
    ({ st with fatalEmitted := true }, .fatal)
  else
    ({ st with reconnectAttempts := st.reconnectAttempts + 1 },
      .scheduledReconnect st.reconnectDelay)

/-- The trace of n successive disconnection handlings: the final state and
the outcome of every invocation in order. -/
def discTrace (st : ConnState) : Nat → ConnState × List DisconnectOutcome
  | 0 => (st, [])
  | n + 1 =>
      let (st1, o) := handleDisconnection st
      let (st2, os) := discTrace st1 n
      (st2, o :: os)

/-- A header-confidence parse that always fails (models values parseFloat
cannot read); used to instantiate the model on concrete traces. -/
def pfNone : String → Option ℚ := fun _ => none

/-- A channel-create event for call c1 with caller and destination numbers. -/
def evCreateC1 : FSEvent :=
  ⟨[("Unique-ID", "c1"), ("Caller-Caller-ID-Number", "01710000000"),
    ("Caller-Destination-Number", "01800000000")]⟩

/-- A channel-execute event for call c1 running the speak application on a
text with no Bengali-block character. -/
def evSpeakC1 : FSEvent :=
  ⟨[("Unique-ID", "c1"), ("Application", "speak"), ("Application-Data", "hello")]⟩

/-- The matching channel-execute-complete event for the speak application on
call c1. -/
def evSpeakDoneC1 : FSEvent :=
  ⟨[("Unique-ID", "c1"), ("Application", "speak")]⟩

/-- A channel-execute event for call c1 running a non-speak application. -/
def evPlaybackC1 : FSEvent :=
  ⟨[("Unique-ID", "c1"), ("Application", "playback"), ("Application-Data", "beep.wav")]⟩

/-- A channel-hangup event for call c1. -/
def evHangupC1 : FSEvent :=
  ⟨[("Unique-ID", "c1"), ("Hangup-Cause", "NORMAL_CLEARING")]⟩

/-- A detected-speech event for call c1. -/
def evSpeechC1 : FSEvent :=
  ⟨[("Unique-ID", "c1"), ("Speech-Result", "yes"), ("Speech-Confidence", "0.9")]⟩

/-- The failing trace for the synthesis end-time claim: create, synthesis
start, matching execute-complete for the same call and application, hangup. -/
def ttsCompleteTrace : List (RawEvent × Nat) :=
  [(.channelCreate evCreateC1, 1000), (.channelExecute evSpeakC1, 2000),
   (.channelExecuteComplete evSpeakDoneC1, 3000), (.channelHangup evHangupC1, 4000)]

/-- The state after processing the failing trace from a fresh service. -/
def ttsCompleteFinal : SysState :=
  run pfNone (initState 0) ttsCompleteTrace

/-- The state after create and one non-speak execute for c1: the session
holds one history event. -/
def dupCreateMid : SysState :=
  run pfNone (initState 0)
    [(.channelCreate evCreateC1, 1000), (.channelExecute evPlaybackC1, 2000)]

/-- The state after a duplicate channel-create for the already-active c1. -/
def dupCreateAfter : SysState :=
  step pfNone dupCreateMid (.channelCreate evCreateC1, 3000)

/-- A concrete completed call session used to instantiate the theorems on
concrete inputs. -/
def wCall : CallSession :=
  ⟨"c1", none, none, 1000, none, some 4000, some "NORMAL_CLEARING", []⟩

/-- A concrete aggregation job: the session above with one cached synthesis
segment. -/
def wBatch : BatchJob :=
  ⟨"c1", wCall, [⟨⟨"tts_start", "c1", "hello", "agent", 2000, 1, "system", "bn-IN"⟩, 2000⟩]⟩

/-- A concrete recording environment with no provider credentials. -/
def wEnv : RecEnv := ⟨false, true, .ok []⟩

/-- Concrete lane counters. -/
def wLane : LaneCounters := ⟨3, 1⟩

/-- An empty concrete durable store. -/
def wDb : DbState := ⟨[], []⟩

/-- A concrete recording-complete payload. -/
def wRec : RecordingData := ⟨"c1", "/recordings/c1.wav", 30, 5000⟩

/-- A concrete fresh connection state: no attempts yet, ceiling 10, base
delay 5000. -/
def wConn : ConnState := ⟨0, 10, 5000, false⟩


theorem mapGet_mapSet_self {α : Type} (m : List (String × α)) (k : String) (v : α) :
    mapGet (mapSet m k v) k = some v := by
  induction m with
  | nil => simp [mapSet, mapGet]
  | cons hd tl ih =>
      obtain ⟨k1, v1⟩ := hd
      by_cases h : k1 = k <;> simp [mapSet, mapGet, h, ih]

theorem mapGet_mapDelete_self {α : Type} (m : List (String × α)) (k : String) :
    mapGet (mapDelete m k) k = none := by
  induction m with
  | nil => simp [mapDelete, mapGet]
  | cons hd tl ih =>
      obtain ⟨k1, v1⟩ := hd
      by_cases h : k1 = k <;> simp [mapDelete, mapGet, h, ih]

@[simp] theorem trackEvent_activeCalls (st : SysState) (t : String) (now : Nat) :
    (trackEvent st t now).activeCalls = st.activeCalls := by
  unfold trackEvent; dsimp only; split <;> rfl

@[simp] theorem trackEvent_activeCallTranscripts (st : SysState) (t : String) (now : Nat) :
    (trackEvent st t now).activeCallTranscripts = st.activeCallTranscripts := by
  unfold trackEvent; dsimp only; split <;> rfl

@[simp] theorem trackEvent_ttsQueue (st : SysState) (t : String) (now : Nat) :
    (trackEvent st t now).ttsQueue = st.ttsQueue := by
  unfold trackEvent; dsimp only; split <;> rfl

@[simp] theorem trackEvent_sttQueue (st : SysState) (t : String) (now : Nat) :
    (trackEvent st t now).sttQueue = st.sttQueue := by
  unfold trackEvent; dsimp only; split <;> rfl

@[simp] theorem trackEvent_batchQueue (st : SysState) (t : String) (now : Nat) :
    (trackEvent st t now).batchQueue = st.batchQueue := by
  unfold trackEvent; dsimp only; split <;> rfl

@[simp] theorem trackEvent_broadcasts (st : SysState) (t : String) (now : Nat) :
    (trackEvent st t now).broadcasts = st.broadcasts := by
  unfold trackEvent; dsimp only; split <;> rfl

@[simp] theorem trackProcessedEvent_activeCalls (st : SysState) (now : Nat) :
    (trackProcessedEvent st now).activeCalls = st.activeCalls := by
  unfold trackProcessedEvent; dsimp only; split <;> rfl

@[simp] theorem trackProcessedEvent_activeCallTranscripts (st : SysState) (now : Nat) :
    (trackProcessedEvent st now).activeCallTranscripts = st.activeCallTranscripts := by
  unfold trackProcessedEvent; dsimp only; split <;> rfl

@[simp] theorem trackProcessedEvent_ttsQueue (st : SysState) (now : Nat) :
    (trackProcessedEvent st now).ttsQueue = st.ttsQueue := by
  unfold trackProcessedEvent; dsimp only; split <;> rfl

@[simp] theorem trackProcessedEvent_sttQueue (st : SysState) (now : Nat) :
    (trackProcessedEvent st now).sttQueue = st.sttQueue := by
  unfold trackProcessedEvent; dsimp only; split <;> rfl

@[simp] theorem trackProcessedEvent_batchQueue (st : SysState) (now : Nat) :
    (trackProcessedEvent st now).batchQueue = st.batchQueue := by
  unfold trackProcessedEvent; dsimp only; split <;> rfl

@[simp] theorem trackProcessedEvent_broadcasts (st : SysState) (now : Nat) :
    (trackProcessedEvent st now).broadcasts = st.broadcasts := by
  unfold trackProcessedEvent; dsimp only; split <;> rfl

@[simp] theorem addCallEvent_ttsQueue (st : SysState) (sid : String) (ev : CallEvent) :
    (addCallEvent st sid ev).ttsQueue = st.ttsQueue := by
  unfold addCallEvent; split <;> rfl

@[simp] theorem addCallEvent_sttQueue (st : SysState) (sid : String) (ev : CallEvent) :
    (addCallEvent st sid ev).sttQueue = st.sttQueue := by
  unfold addCallEvent; split <;> rfl

@[simp] theorem addCallEvent_activeCallTranscripts (st : SysState) (sid : String) (ev : CallEvent) :
    (addCallEvent st sid ev).activeCallTranscripts = st.activeCallTranscripts := by
  unfold addCallEvent; split <;> rfl

@[simp] theorem tpProcessCallComplete_activeCalls (st : SysState) (callData : CallSession) (now : Nat) :
    (tpProcessCallComplete st callData now).activeCalls = st.activeCalls := by
  unfold tpProcessCallComplete
  dsimp only
  split
  · split <;> simp
  · simp

theorem mem_dedupFirstAux (acc l : List String) (y : String) :
    y ∈ dedupFirstAux acc l ↔ y ∈ acc ∨ y ∈ l := by
  induction l generalizing acc with
  | nil => simp [dedupFirstAux]
  | cons x xs ih =>
      simp only [dedupFirstAux]
      split
      case isTrue h =>
        rw [ih]
        constructor
        · rintro (h1 | h1)
          · exact Or.inl h1
          · exact Or.inr (List.mem_cons_of_mem _ h1)
        · rintro (h1 | h1)
          · exact Or.inl h1
          · rcases List.mem_cons.mp h1 with h2 | h2
            · exact Or.inl (h2 ▸ h)
            · exact Or.inr h2
      case isFalse h =>
        rw [ih]
        simp [List.mem_append, List.mem_cons]
        tauto

theorem nodup_dedupFirstAux (acc l : List String) (h : acc.Nodup) :
    (dedupFirstAux acc l).Nodup := by
  induction l generalizing acc with
  | nil => simpa [dedupFirstAux]
  | cons x xs ih =>
      simp only [dedupFirstAux]
      split
      case isTrue hx => exact ih _ h
      case isFalse hx =>
        refine ih _ ?_
        simp [List.nodup_append, h, hx]

theorem mem_dedupFirst (l : List String) (y : String) :
    y ∈ dedupFirst l ↔ y ∈ l := by
  simp [dedupFirst, mem_dedupFirstAux]

theorem nodup_dedupFirst (l : List String) : (dedupFirst l).Nodup :=
  nodup_dedupFirstAux [] l (by simp)

theorem hangup_noop (st : SysState) (e : FSEvent) (now : Nat)
    (h : mapGet st.activeCalls ((extractCallSid e).getD "") = none) :
    handleChannelHangup st e now = st := by
  unfold handleChannelHangup
  dsimp only
  by_cases ht : jsTruthy (extractCallSid e) <;> simp [ht, h]

theorem hangup_activeCalls_delete (st : SysState) (e : FSEvent) (now : Nat)
    (ht : jsTruthy (extractCallSid e) = true) (call : CallSession)
    (h : mapGet st.activeCalls ((extractCallSid e).getD "") = some call) :
    (handleChannelHangup st e now).activeCalls =
      mapDelete st.activeCalls ((extractCallSid e).getD "") := by
  unfold handleChannelHangup
  dsimp only
  simp [ht, h, tpProcessCallComplete_activeCalls]

/-- C8: deleting an active call session on hangup is idempotent — once a
hangup for a call id has been processed (removing the entry from the
active-call table), a second hangup event for the same call id leaves the
entire system state unchanged: no second aggregation job is submitted and no
state changes. -/
theorem hangup_idempotent (st : SysState) (e : FSEvent) (now now2 : Nat) :
    handleChannelHangup (handleChannelHangup st e now) e now2 =
      handleChannelHangup st e now := by
  by_cases ht : jsTruthy (extractCallSid e)
  · cases hget : mapGet st.activeCalls ((extractCallSid e).getD "") with
    | none =>
        rw [hangup_noop st e now hget, hangup_noop st e now2 hget]
    | some call =>
        apply hangup_noop
        rw [hangup_activeCalls_delete st e now ht call hget]
        exact mapGet_mapDelete_self _ _
  · have hno : ∀ t : Nat, handleChannelHangup st e t = st := by
      intro t
      unfold handleChannelHangup
      dsimp only
      simp [ht]
    rw [hno now, hno now2]

/-- C7: reconnection attempts never exceed the configured ceiling; every
scheduled reconnect uses the constant configured base delay (not exponential);
and once the attempt count has reached the ceiling every further disconnection
handling is fatal (the max_reconnects_reached signal, the FAILED state) and
never schedules another reconnect, leaving the attempt count unchanged. -/
theorem reconnect_ceiling (st : ConnState) (n : Nat)
    (h : st.reconnectAttempts ≤ st.maxReconnectAttempts) :
    ((discTrace st n).1.reconnectAttempts ≤ st.maxReconnectAttempts) ∧
    ((discTrace st n).1.maxReconnectAttempts = st.maxReconnectAttempts) ∧
    ((discTrace st n).1.reconnectDelay = st.reconnectDelay) ∧
    (∀ d : Nat, DisconnectOutcome.scheduledReconnect d ∈ (discTrace st n).2 →
      d = st.reconnectDelay) ∧
    (st.reconnectAttempts = st.maxReconnectAttempts →
      (discTrace st n).1.reconnectAttempts = st.maxReconnectAttempts ∧
      ∀ o ∈ (discTrace st n).2, o = DisconnectOutcome.fatal) := by
  induction n generalizing st with
  | zero => simpa [discTrace] using h
  | succ n ih =>
      by_cases hc : st.maxReconnectAttempts ≤ st.reconnectAttempts
      · have hstep : handleDisconnection st =
            ({ st with fatalEmitted := true }, DisconnectOutcome.fatal) := by
          simp [handleDisconnection, hc]
        obtain ⟨ih1, ih2, ih3, ih4, ih5⟩ :=
          ih { st with fatalEmitted := true } (by simpa using h)
        simp only [discTrace, hstep]
        refine ⟨ih1, ih2, ih3, ?_, ?_⟩
        · intro d hd
          rcases List.mem_cons.mp hd with h1 | h1
          · cases h1
          · exact ih4 d h1
        · intro heq
          obtain ⟨ih5a, ih5b⟩ := ih5 heq
          refine ⟨ih5a, ?_⟩
          intro o ho
          rcases List.mem_cons.mp ho with h1 | h1
          · exact h1
          · exact ih5b o h1
      · have hlt : st.reconnectAttempts < st.maxReconnectAttempts :=
          Nat.lt_of_not_le hc
        have hstep : handleDisconnection st =
            ({ st with reconnectAttempts := st.reconnectAttempts + 1 },
              DisconnectOutcome.scheduledReconnect st.reconnectDelay) := by
          simp [handleDisconnection, hc]
        obtain ⟨ih1, ih2, ih3, ih4, ih5⟩ :=
          ih { st with reconnectAttempts := st.reconnectAttempts + 1 }
            (by simpa using hlt)
        simp only [discTrace, hstep]
        refine ⟨ih1, ih2, ih3, ?_, ?_⟩
        · intro d hd
          rcases List.mem_cons.mp hd with h1 | h1
          · cases h1; rfl
          · exact ih4 d h1
        · intro heq
          exact absurd heq (Nat.ne_of_lt hlt)

theorem trim_eq_drop (l : List CachedEvent) :
    (if l.length > 100 then l.drop (l.length - 100) else l) = l.drop (l.length - 100) := by
  by_cases h : l.length > 100
  · simp [h]
  · have h0 : l.length - 100 = 0 := by omega
    simp [h, h0]

theorem addToCallCache_get (m : List (String × List CachedEvent)) (sid : String)
    (d : EventData) (now : Nat) :
    mapGet (addToCallCache m sid d now) sid =
      some ((((mapGet m sid).getD []) ++ [CachedEvent.mk d now]).drop
        ((((mapGet m sid).getD []).length + 1) - 100)) := by
  unfold addToCallCache
  dsimp only
  by_cases hm : mapHas m sid
  · rw [if_pos hm, mapGet_mapSet_self]
    rw [trim_eq_drop]
    simp
  · rw [if_neg hm, mapGet_mapSet_self]
    have hnone : mapGet m sid = none := by
      unfold mapHas at hm
      cases hg : mapGet m sid
      · rfl
      · rw [hg] at hm; simp at hm
    rw [mapGet_mapSet_self, trim_eq_drop]
    simp [hnone]

/-- C9: every per-call transcript cache holds at most the 100 most recently
added events — the entry after an add equals the pushed list with everything
before its last 100 elements dropped (so adding to a full cache of 100 drops
the oldest entry) — and the aggregated call record built from such a cache
reports total_segments at most 100. -/
theorem cache_holds_last_100 (m : List (String × List CachedEvent)) (sid : String)
    (d : EventData) (now : Nat) :
    (((mapGet (addToCallCache m sid d now) sid).getD []).length ≤ 100) ∧
    (((mapGet (addToCallCache m sid d now) sid).getD []) =
      (((mapGet m sid).getD []) ++ [CachedEvent.mk d now]).drop
        ((((mapGet m sid).getD []).length + 1) - 100)) ∧
    ∀ (callData : CallSession) (t : Nat),
      (mkCallTranscript
        { callSid := sid, callData := callData,
          transcriptSegments := (mapGet (addToCallCache m sid d now) sid).getD [] }
        t).total_segments ≤ 100 := by
  have hget := addToCallCache_get m sid d now
  rw [hget]
  refine ⟨?_, by simp, ?_⟩
  · simp [List.length_drop]
    omega
  · intro callData t
    simp [mkCallTranscript, List.length_drop]
    omega

/-- C10: when a call completes with no cached transcript events (cache entry
absent or empty), no aggregation job is submitted to the batch queue — hence
no durable call-transcript record is ever built for the call, records being
built only from batch jobs — and the other queues are untouched, while the
cache entry for the call id is removed. -/
theorem empty_cache_no_aggregation (st : SysState) (call : CallSession) (now : Nat)
    (h : mapGet st.activeCallTranscripts call.callSid = none ∨
         mapGet st.activeCallTranscripts call.callSid = some []) :
    (tpProcessCallComplete st call now).batchQueue = st.batchQueue ∧
    mapGet (tpProcessCallComplete st call now).activeCallTranscripts call.callSid = none ∧
    (tpProcessCallComplete st call now).ttsQueue = st.ttsQueue ∧
    (tpProcessCallComplete st call now).sttQueue = st.sttQueue ∧
    (tpProcessCallComplete st call now).activeCalls = st.activeCalls := by
  rcases h with h | h <;>
  · unfold tpProcessCallComplete
    dsimp only
    simp [h, mapGet_mapDelete_self]

/-- C5: each processed aggregation job appends exactly one durable
call-transcript record, whose duration is the end-minus-start millisecond
difference expressed in whole (rounded) seconds, whose language set is the
deduplicated union of the cached segments' languages, whose total segment
count is the number of cached segments, and whose status is completed. -/
theorem aggregation_builds_one_record (db : DbState) (batch : BatchJob)
    (createdAt : Nat) (e : Nat) (h : batch.callData.endTime = some e) :
    ((processBatchCallComplete db batch createdAt).callTranscripts =
      db.callTranscripts ++ [mkCallTranscript batch createdAt]) ∧
    ((mkCallTranscript batch createdAt).duration =
      (e - batch.callData.startTime + 500) / 1000) ∧
    ((mkCallTranscript batch createdAt).total_segments =
      batch.transcriptSegments.length) ∧
    ((mkCallTranscript batch createdAt).status = "completed") ∧
    ((mkCallTranscript batch createdAt).languages =
      String.intercalate ","
        (dedupFirst (batch.transcriptSegments.map (fun s => s.data.language)))) ∧
    ((dedupFirst (batch.transcriptSegments.map (fun s => s.data.language))).Nodup) ∧
    ∀ lang : String,
      lang ∈ dedupFirst (batch.transcriptSegments.map (fun s => s.data.language)) ↔
        lang ∈ batch.transcriptSegments.map (fun s => s.data.language) := by
  refine ⟨?_, ?_, rfl, rfl, rfl, nodup_dedupFirst _, fun lang => mem_dedupFirst _ _⟩
  · unfold processBatchCallComplete
    dsimp only
    split <;> rfl
  · simp [mkCallTranscript, h]

/-- C6: a recording batch-transcription job run without provider credentials
resolves as a no-op success: the skipped result is returned, the store is
unchanged (zero segments inserted), the lane completed counter is bumped and
the lane failure counter is unchanged. -/
theorem missing_credentials_skip (lane : LaneCounters) (env : RecEnv) (db : DbState)
    (rec : RecordingData) (createdAt : Nat) (h : env.hasGoogleCredentials = false) :
    (runRecordingJob lane env db rec createdAt =
      ({ lane with completed := lane.completed + 1 }, db,
        some (RecJobResult.skipped "No Google Cloud credentials"))) ∧
    ((runRecordingJob lane env db rec createdAt).1.failed = lane.failed) ∧
    ((runRecordingJob lane env db rec createdAt).2.1.segments = db.segments) := by
  have hjob : processRecordingJob env db rec createdAt =
      .ok (db, .skipped "No Google Cloud credentials") := by
    unfold processRecordingJob
    simp [h]
  refine ⟨?_, ?_, ?_⟩ <;> simp [runRecordingJob, hjob]

/-- C2 counterexample: a detected-speech event for call id c1, which is not
in the (empty) active-call table, is not discarded — a segment job is still
submitted to the recognition queue and a per-call cache entry is created. -/
theorem recognition_unknown_call_not_discarded :
    mapHas (initState 0).activeCalls "c1" = false ∧
    (handleDetectedSpeech pfNone (initState 0) evSpeechC1 1000).sttQueue.length = 1 ∧
    (mapGet (handleDetectedSpeech pfNone (initState 0) evSpeechC1 1000).activeCallTranscripts
      "c1").isSome = true := by
  refine ⟨rfl, rfl, rfl⟩

/-- C2 amended: a recognition event whose call id is absent from the
active-call table is still processed — the handler never consults the table,
so the stt_detected payload is appended to the recognition queue and to the
per-call cache; no exception propagates to the ingestion path (the handler is
total and its source wraps the work in a catch). -/
theorem recognition_unknown_call_still_processed (pf : String → Option ℚ)
    (st : SysState) (e : FSEvent) (now : Nat)
    (hsr : jsTruthy (getHeader e "Speech-Result") = true)
    (hcs : jsTruthy (extractCallSid e) = true)
    (hunknown : mapHas st.activeCalls ((extractCallSid e).getD "") = false) :
    ∃ d : EventData,
      d.type = "stt_detected" ∧
      d.callSid = (extractCallSid e).getD "" ∧
      d.text = (getHeader e "Speech-Result").getD "" ∧
      (handleDetectedSpeech pf st e now).sttQueue = st.sttQueue ++ [d] ∧
      (mapGet (handleDetectedSpeech pf st e now).activeCallTranscripts
        ((extractCallSid e).getD "")).isSome = true := by
  refine ⟨EventData.mk "stt_detected" ((extractCallSid e).getD "")
    ((getHeader e "Speech-Result").getD "") "caller" now
    (parsedConfidence pf (getHeader e "Speech-Confidence")) "google" "bn-BD",
    rfl, rfl, rfl, ?_, ?_⟩
  · unfold handleDetectedSpeech
    dsimp only
    simp [hsr, hcs, tpProcessSTTEvent]
  · unfold handleDetectedSpeech
    dsimp only
    simp [hsr, hcs, tpProcessSTTEvent, addToCallCache_get]

/-- C3 counterexample: after create and one recorded execute event, the
session for c1 holds one history event; a duplicate channel-create for c1
then resets the session — the history is empty and the start time is the
duplicate's clock — so the existing session is not left unchanged. -/
theorem duplicate_create_loses_history :
    ((mapGet dupCreateMid.activeCalls "c1").map (fun c => c.events.length) = some 1) ∧
    ((mapGet dupCreateAfter.activeCalls "c1").map (fun c => c.events.length) = some 0) ∧
    ((mapGet dupCreateAfter.activeCalls "c1").map (fun c => c.startTime) = some 3000) := by
  refine ⟨rfl, rfl, rfl⟩

/-- C3 amended: channel-create is not idempotent — for any truthy call id,
also one already present in the active table, the handler stores a fresh
session (caller and destination from the event, start time the current clock,
empty event history), replacing whatever entry existed. -/
theorem duplicate_create_replaces_session (st : SysState) (e : FSEvent) (now : Nat)
    (h : jsTruthy (extractCallSid e) = true) :
    mapGet (handleChannelCreate st e now).activeCalls ((extractCallSid e).getD "") =
      some (CallSession.mk ((extractCallSid e).getD "")
        (getHeader e "Caller-Caller-ID-Number")
        (getHeader e "Caller-Destination-Number") now none none none []) := by
  unfold handleChannelCreate
  dsimp only
  simp [h, mapGet_mapSet_self]

/-- C4 counterexample: for synthesis text containing no Bengali-block
character, the queued segment's language is not left unset — it is the
default regional code bn-IN. -/
theorem synthesis_language_defaulted_not_unset :
    containsBengali "hello" = false ∧
    (handleChannelExecute (initState 0) evSpeakC1 1000).ttsQueue.map
      (fun d => d.language) = ["bn-IN"] := by
  exact ⟨rfl, rfl⟩

/-- C4 amended: language inference for synthesis text runs the script-range
heuristic (extractLanguage: bn-IN on a Bengali-block character, null
otherwise), but the handler substitutes the same default bn-IN for the null
case, so the queued synthesis segment's language always equals bn-IN and is
never left unset. -/
theorem synthesis_language_always_default (st : SysState) (e : FSEvent) (now : Nat)
    (happ : getHeader e "Application" = some "speak")
    (hdata : jsTruthy (getHeader e "Application-Data") = true)
    (hsid : jsTruthy (extractCallSid e) = true) :
    ∃ d : EventData,
      (handleChannelExecute st e now).ttsQueue = st.ttsQueue ++ [d] ∧
      d.language =
        (extractLanguage ((getHeader e "Application-Data").getD "")).getD "bn-IN" ∧
      d.language = "bn-IN" := by
  refine ⟨EventData.mk "tts_start" ((extractCallSid e).getD "")
    ((getHeader e "Application-Data").getD "") "agent" now 1 "system"
    ((extractLanguage ((getHeader e "Application-Data").getD "")).getD "bn-IN"),
    ?_, rfl, ?_⟩
  · unfold handleChannelExecute
    dsimp only
    simp [happ, hdata, hsid, tpProcessTTSEvent]
  · unfold extractLanguage
    split <;> rfl

/-- C1: on the failing trace — call created, synthesis started with the speak
application, a matching execute-complete for the same call id and application
observed before hangup — the matching completion never sets the synthesis
segment's end time: the realtime segment built from the queued TTS job still
has a null end time, and the aggregated record's segment row carries the
start timestamp as its end time rather than a closed synthesis interval.  The
completion was observed (its broadcast is in the log), contradicting the
claim and the source comment that the end time will be updated when the TTS
completes. -/
theorem tts_end_time_never_set :
    (("c1", BroadcastMsg.ttsComplete "c1" 3000) ∈ ttsCompleteFinal.broadcasts) ∧
    (ttsCompleteFinal.ttsQueue.map (fun d => (processTTSJob d 9999).end_time) = [none]) ∧
    (ttsCompleteFinal.batchQueue.map (fun b => b.transcriptSegments.map
      (fun s => (mkPersistedSegment b.callSid s 9999).end_time)) = [[2000]]) := by
  refine ⟨?_, rfl, rfl⟩
  decide

/-- Witness for the reconnection-ceiling theorem at a fresh connection state
with ceiling 10, running 12 disconnections. -/
theorem reconnect_ceiling_witness :
    (wConn.reconnectAttempts ≤ wConn.maxReconnectAttempts) ∧
    (((discTrace wConn 12).1.reconnectAttempts ≤ wConn.maxReconnectAttempts) ∧
      ((discTrace wConn 12).1.maxReconnectAttempts = wConn.maxReconnectAttempts) ∧
      ((discTrace wConn 12).1.reconnectDelay = wConn.reconnectDelay) ∧
      (∀ d : Nat, DisconnectOutcome.scheduledReconnect d ∈ (discTrace wConn 12).2 →
        d = wConn.reconnectDelay) ∧
      (wConn.reconnectAttempts = wConn.maxReconnectAttempts →
        (discTrace wConn 12).1.reconnectAttempts = wConn.maxReconnectAttempts ∧
        ∀ o ∈ (discTrace wConn 12).2, o = DisconnectOutcome.fatal)) :=
  ⟨by decide, reconnect_ceiling wConn 12 (by decide)⟩

/-- Witness for the empty-cache no-aggregation theorem on a fresh state and
the concrete session. -/
theorem empty_cache_no_aggregation_witness :
    (mapGet (initState 0).activeCallTranscripts wCall.callSid = none ∨
      mapGet (initState 0).activeCallTranscripts wCall.callSid = some []) ∧
    ((tpProcessCallComplete (initState 0) wCall 4000).batchQueue =
        (initState 0).batchQueue ∧
      mapGet (tpProcessCallComplete (initState 0) wCall 4000).activeCallTranscripts
        wCall.callSid = none ∧
      (tpProcessCallComplete (initState 0) wCall 4000).ttsQueue = (initState 0).ttsQueue ∧
      (tpProcessCallComplete (initState 0) wCall 4000).sttQueue = (initState 0).sttQueue ∧
      (tpProcessCallComplete (initState 0) wCall 4000).activeCalls =
        (initState 0).activeCalls) :=
  ⟨Or.inl rfl, empty_cache_no_aggregation (initState 0) wCall 4000 (Or.inl rfl)⟩

/-- Witness for the aggregation-record theorem on the concrete job. -/
theorem aggregation_builds_one_record_witness :
    (wBatch.callData.endTime = some 4000) ∧
    (((processBatchCallComplete wDb wBatch 9999).callTranscripts =
        wDb.callTranscripts ++ [mkCallTranscript wBatch 9999]) ∧
      ((mkCallTranscript wBatch 9999).duration =
        (4000 - wBatch.callData.startTime + 500) / 1000) ∧
      ((mkCallTranscript wBatch 9999).total_segments =
        wBatch.transcriptSegments.length) ∧
      ((mkCallTranscript wBatch 9999).status = "completed") ∧
      ((mkCallTranscript wBatch 9999).languages =
        String.intercalate ","
          (dedupFirst (wBatch.transcriptSegments.map (fun s => s.data.language)))) ∧
      ((dedupFirst (wBatch.transcriptSegments.map (fun s => s.data.language))).Nodup) ∧
      ∀ lang : String,
        lang ∈ dedupFirst (wBatch.transcriptSegments.map (fun s => s.data.language)) ↔
          lang ∈ wBatch.transcriptSegments.map (fun s => s.data.language)) :=
  ⟨rfl, aggregation_builds_one_record wDb wBatch 9999 4000 rfl⟩

/-- Witness for the missing-credentials skip theorem on the concrete
credential-less environment. -/
theorem missing_credentials_skip_witness :
    (wEnv.hasGoogleCredentials = false) ∧
    ((runRecordingJob wLane wEnv wDb wRec 9999 =
        ({ wLane with completed := wLane.completed + 1 }, wDb,
          some (RecJobResult.skipped "No Google Cloud credentials"))) ∧
      ((runRecordingJob wLane wEnv wDb wRec 9999).1.failed = wLane.failed) ∧
      ((runRecordingJob wLane wEnv wDb wRec 9999).2.1.segments = wDb.segments)) :=
  ⟨rfl, missing_credentials_skip wLane wEnv wDb wRec 9999 rfl⟩

/-- Witness for the unknown-call recognition theorem on a fresh state and the
concrete detected-speech event. -/
theorem recognition_unknown_call_still_processed_witness :
    (jsTruthy (getHeader evSpeechC1 "Speech-Result") = true) ∧
    (jsTruthy (extractCallSid evSpeechC1) = true) ∧
    (mapHas (initState 0).activeCalls ((extractCallSid evSpeechC1).getD "") = false) ∧
    (∃ d : EventData,
      d.type = "stt_detected" ∧
      d.callSid = (extractCallSid evSpeechC1).getD "" ∧
      d.text = (getHeader evSpeechC1 "Speech-Result").getD "" ∧
      (handleDetectedSpeech pfNone (initState 0) evSpeechC1 1000).sttQueue =
        (initState 0).sttQueue ++ [d] ∧
      (mapGet (handleDetectedSpeech pfNone (initState 0) evSpeechC1 1000).activeCallTranscripts
        ((extractCallSid evSpeechC1).getD "")).isSome = true) :=
  ⟨rfl, rfl, rfl,
    recognition_unknown_call_still_processed pfNone (initState 0) evSpeechC1 1000 rfl rfl rfl⟩

/-- Witness for the duplicate-create replacement theorem at a state where c1
is already active with one history event. -/
theorem duplicate_create_replaces_session_witness :
    (jsTruthy (extractCallSid evCreateC1) = true) ∧
    (mapGet (handleChannelCreate dupCreateMid evCreateC1 3000).activeCalls
        ((extractCallSid evCreateC1).getD "") =
      some (CallSession.mk ((extractCallSid evCreateC1).getD "")
        (getHeader evCreateC1 "Caller-Caller-ID-Number")
        (getHeader evCreateC1 "Caller-Destination-Number") 3000 none none none [])) :=
  ⟨rfl, duplicate_create_replaces_session dupCreateMid evCreateC1 3000 rfl⟩

/-- Witness for the synthesis-language default theorem on a fresh state and
the concrete speak event with non-Bengali text. -/
theorem synthesis_language_always_default_witness :
    (getHeader evSpeakC1 "Application" = some "speak") ∧
    (jsTruthy (getHeader evSpeakC1 "Application-Data") = true) ∧
    (jsTruthy (extractCallSid evSpeakC1) = true) ∧
    (∃ d : EventData,
      (handleChannelExecute (initState 0) evSpeakC1 1000).ttsQueue =
        (initState 0).ttsQueue ++ [d] ∧
      d.language =
        (extractLanguage ((getHeader evSpeakC1 "Application-Data").getD "")).getD "bn-IN" ∧
      d.language = "bn-IN") :=
  ⟨rfl, rfl, rfl,
    synthesis_language_always_default (initState 0) evSpeakC1 1000 rfl rfl rfl⟩
